import Mathlib

/-
  Verification of the expense-tracking pipeline: a shallow embedding of the
  categorization reconciler, the regex-based field extractor, the agent
  memory window, the image preprocessor, the budget generator and the
  JSON-store data manager, with theorems about their specified behaviour.
  Language-model calls and other external collaborators are modelled as
  oracle parameters (the parsed response, or none when the call or the
  JSON parse fails).
-/

namespace ExpenseTracker

/-! ### String helpers (Python substring and case operations) -/

/-- Python substring test: does the list of characters start with the given pattern. -/
def chars_start_with : List Char → List Char → Bool
  | [], _ => true
  | _ :: _, [] => false
  | a :: as, b :: bs => a = b && chars_start_with as bs

/-- Python `sub in hay` substring membership over character lists. -/
def contains_sub (sub : List Char) : List Char → Bool
  | [] => sub.isEmpty
  | c :: t => chars_start_with sub (c :: t) || contains_sub sub t

/-- Python `sub in hay` on strings, as used by keyword matching. -/
def str_contains (hay sub : String) : Bool :=
  contains_sub sub.data hay.data

/-! ### Categorization agent (src/agents/categorization_agent.py) -/

/-- The fixed 13-element category set of CategorizationAgent. -/
def categories : List String :=
  ["Food & Dining", "Groceries", "Shopping & Retail", "Transportation & Gas",
   "Entertainment & Recreation", "Healthcare & Medical", "Utilities & Bills",
   "Home & Garden", "Education & Learning", "Travel & Vacation",
   "Professional Services", "Subscriptions & Memberships", "Other"]

/-- The keyword table of CategorizationAgent.category_keywords, in source order. -/
def category_keywords : List (String × List String) :=
  [("Food & Dining",
    ["restaurant", "cafe", "starbucks", "mcdonalds", "pizza", "burger", "kfc",
     "subway", "taco bell", "chipotle", "dining", "bar", "pub", "bistro"]),
   ("Groceries",
    ["grocery", "supermarket", "walmart", "target", "kroger", "safeway",
     "whole foods", "trader joe", "costco", "sams club", "food store"]),
   ("Shopping & Retail",
    ["amazon", "ebay", "store", "mall", "clothing", "fashion", "shoes",
     "electronics", "best buy", "apple store", "retail", "boutique"]),
   ("Transportation & Gas",
    ["gas", "fuel", "shell", "exxon", "bp", "chevron", "mobil", "uber",
     "lyft", "taxi", "parking", "metro", "bus", "train", "car wash"]),
   ("Entertainment & Recreation",
    ["movie", "theater", "cinema", "netflix", "spotify", "game", "concert",
     "sports", "gym", "fitness", "recreation", "park", "museum"]),
   ("Healthcare & Medical",
    ["pharmacy", "cvs", "walgreens", "hospital", "doctor", "medical",
     "health", "clinic", "dental", "vision", "insurance", "medication"]),
   ("Utilities & Bills",
    ["electric", "electricity", "water", "internet", "phone", "cable",
     "utility", "bill", "service", "telecom", "energy", "heating"]),
   ("Home & Garden",
    ["home depot", "lowes", "hardware", "garden", "furniture", "decor",
     "improvement", "repair", "maintenance", "cleaning", "household"]),
   ("Education & Learning",
    ["school", "university", "education", "books", "tuition", "course",
     "training", "workshop", "seminar", "learning", "academic"]),
   ("Travel & Vacation",
    ["hotel", "airbnb", "airline", "flight", "airport", "travel", "vacation",
     "rental", "tourism", "booking", "expedia", "trip"]),
   ("Professional Services",
    ["lawyer", "accountant", "consultant", "service", "professional",
     "business", "office", "meeting", "conference", "networking"]),
   ("Subscriptions & Memberships",
    ["subscription", "membership", "monthly", "annual", "premium", "pro",
     "plus", "streaming", "software", "app", "service plan"])]

/-- Score contributed by one keyword: 3 for a merchant hit, 1 for an items hit. -/
def keyword_score (merchant_l items_l : List Char) (kw : String) : Nat :=
  (if contains_sub kw.data merchant_l then 3 else 0) +
  (if contains_sub kw.data items_l then 1 else 0)

/-- Total score of one category: sum of keyword scores over its keyword list. -/
def category_score (merchant_l items_l : List Char) (kws : List String) : Nat :=
  (kws.map (keyword_score merchant_l items_l)).foldl (· + ·) 0

/-- Pick the first pair attaining the maximal score, as Python max over dict keys
with the score as sorting key does. -/
def pick_max_score (x : String × Nat) (xs : List (String × Nat)) : String × Nat :=
  xs.foldl (fun best y => if best.2 < y.2 then y else best) x

/-- The positive category scores of _rule_based_categorization, in keyword-table
order (matching Python dict insertion order). -/
def category_scores_of (merchant : String) (items : List String) : List (String × Nat) :=
  let merchant_l := merchant.toLower.data
  let items_l := (String.intercalate " " items).toLower.data
  (category_keywords.map (fun p => (p.1, category_score merchant_l items_l p.2))).filter
    (fun p => 0 < p.2)

/-- CategorizationAgent._rule_based_categorization: keyword scoring over merchant
and joined items text, returning the best-scoring category or none. -/
def rule_based_categorization (merchant : String) (items : List String) : Option String :=
  match category_scores_of merchant items with
  | [] => none
  | x :: xs => some (pick_max_score x xs).1

/-- The JSON object parsed from the AI categorization response of
CategorizationAgent._ai_categorization; fields may be absent. -/
structure AIRawCat where
  category : Option String
  reasoning : Option String
  confidence : Option ℚ

/-- The dictionary returned by CategorizationAgent._ai_categorization on success. -/
structure AIResultCat where
  category : String
  reasoning : String
  confidence : ℚ

/-- CategorizationAgent._ai_categorization: the oracle argument is the parsed AI
response, or none when the call or the JSON parse raised. An out-of-set
category is coerced to Other. -/
def ai_categorization (response : Option AIRawCat) : Option AIResultCat :=
  match response with
  | none => none
  | some parsed =>
    let c0 := parsed.category.getD "Other"
    let c := if c0 ∈ categories then c0 else "Other"
    some { category := c, reasoning := parsed.reasoning.getD "",
           confidence := parsed.confidence.getD 0.7 }

/-- CategorizationAgent._fallback_categorization: last-resort keyword check. -/
def fallback_categorization (merchant : String) (items : List String) : String :=
  let merchant_l := merchant.toLower.data
  if ["food", "restaurant", "cafe"].any (fun w => contains_sub w.data merchant_l) then
    "Food & Dining"
  else if ["store", "shop", "mart"].any (fun w => contains_sub w.data merchant_l) then
    "Shopping & Retail"
  else if ["gas", "fuel", "oil"].any (fun w => contains_sub w.data merchant_l) then
    "Transportation & Gas"
  else
    "Other"

/-- CategorizationAgent._combine_categorization_results: reconcile the rule-based
and AI category guesses into one category and confidence. -/
def combine_categorization_results (rule_based : Option String)
    (ai_result : Option AIResultCat) (merchant : String) (items : List String) :
    String × ℚ :=
  match rule_based, ai_result with
  | some r, some a =>
    if r = a.category then (r, min 0.95 (a.confidence + 0.1))
    else (a.category, max 0.7 (a.confidence - 0.1))
  | none, some a => (a.category, a.confidence)
  | some r, none => (r, 0.75)
  | none, none => (fallback_categorization merchant items, 0.5)

/-- The per-category explanation template of
CategorizationAgent._generate_explanation. -/
def explanation_template (category merchant : String) : String :=
  if category = "Food & Dining" then "Meal/dining expense at " ++ merchant
  else if category = "Groceries" then "Grocery shopping at " ++ merchant
  else if category = "Shopping & Retail" then "Retail purchase at " ++ merchant
  else if category = "Transportation & Gas" then "Transportation/fuel expense at " ++ merchant
  else if category = "Entertainment & Recreation" then "Entertainment expense at " ++ merchant
  else if category = "Healthcare & Medical" then "Healthcare expense at " ++ merchant
  else if category = "Utilities & Bills" then "Utility/bill payment to " ++ merchant
  else if category = "Home & Garden" then "Home improvement expense at " ++ merchant
  else if category = "Education & Learning" then "Educational expense at " ++ merchant
  else if category = "Travel & Vacation" then "Travel expense at " ++ merchant
  else if category = "Professional Services" then "Professional service from " ++ merchant
  else if category = "Subscriptions & Memberships" then "Subscription/membership fee to " ++ merchant
  else if category = "Other" then "Miscellaneous expense at " ++ merchant
  else "Expense at " ++ merchant

/-- CategorizationAgent._generate_explanation, with the first two items appended. -/
def generate_explanation (merchant : String) (_amount : ℚ) (category : String)
    (items : List String) : String :=
  let base := explanation_template category merchant
  if items.isEmpty then base
  else base ++ " (items: " ++ String.intercalate ", " (items.take 2) ++ ")"

/-- The dictionary returned by CategorizationAgent.categorize_expense. -/
structure CategorizationOutput where
  category : String
  confidence : ℚ
  explanation : String
  rule_based_suggestion : Option String
  ai_suggestion : Option AIResultCat

/-- CategorizationAgent.categorize_expense: rule-based pass, AI pass (oracle),
reconciliation and explanation. -/
def categorize_expense (merchant : String) (amount : ℚ) (items : List String)
    (_previous_categories : List String) (ai_response : Option AIRawCat) :
    CategorizationOutput :=
  let rule_based := rule_based_categorization merchant items
  let ai := ai_categorization ai_response
  let combined := combine_categorization_results rule_based ai merchant items
  { category := combined.1, confidence := combined.2,
    explanation := generate_explanation merchant amount combined.1 items,
    rule_based_suggestion := rule_based, ai_suggestion := ai }

/-! ### Orchestrator categorization (src/ai_agent_orchestrator.py) -/

/-- The valid category list of AIAgentOrchestrator.categorize_expense_with_ai. -/
def valid_categories : List String :=
  ["Food & Dining", "Groceries", "Shopping & Retail", "Transportation & Gas",
   "Entertainment & Recreation", "Healthcare & Medical", "Utilities & Bills",
   "Home & Garden", "Education & Learning", "Travel & Vacation",
   "Professional Services", "Subscriptions & Memberships", "Other"]

/-- AIAgentOrchestrator._fallback_categorize: simple keyword fallback. -/
def fallback_categorize (merchant : String) (_items : List String) : String :=
  let merchant_l := merchant.toLower.data
  if ["grocery", "market", "food", "walmart", "target"].any
      (fun w => contains_sub w.data merchant_l) then "Groceries"
  else if ["restaurant", "cafe", "pizza", "burger", "starbucks"].any
      (fun w => contains_sub w.data merchant_l) then "Food & Dining"
  else if ["gas", "fuel", "shell", "exxon", "chevron"].any
      (fun w => contains_sub w.data merchant_l) then "Transportation & Gas"
  else if ["pharmacy", "cvs", "walgreens", "medical"].any
      (fun w => contains_sub w.data merchant_l) then "Healthcare & Medical"
  else "Other"

/-- The JSON object parsed from the categorization response in
AIAgentOrchestrator.categorize_expense_with_ai; fields may be absent. -/
structure AIRawCat2 where
  category : Option String
  confidence : Option ℚ
  reasoning : Option String
  tags : Option (List String)
  is_recurring : Option Bool

/-- The dictionary returned by AIAgentOrchestrator.categorize_expense_with_ai. -/
structure CatResult2 where
  category : String
  confidence : ℚ
  reasoning : String
  tags : List String
  is_recurring : Bool

/-- AIAgentOrchestrator.categorize_expense_with_ai: the oracle argument is the
parsed AI response or none on call or parse failure; an out-of-set category is
replaced by the keyword fallback, and missing fields are defaulted. -/
def categorize_expense_with_ai (merchant : String) (_amount : ℚ)
    (items : List String) (response : Option AIRawCat2) : CatResult2 :=
  match response with
  | some parsed =>
    let c := match parsed.category with
      | some c0 => if c0 ∈ valid_categories then c0 else fallback_categorize merchant items
      | none => fallback_categorize merchant items
    { category := c,
      confidence := parsed.confidence.getD 0.8,
      reasoning := parsed.reasoning.getD ("Categorized based on merchant: " ++ merchant),
      tags := parsed.tags.getD [],
      is_recurring := parsed.is_recurring.getD false }
  | none =>
    { category := fallback_categorize merchant items,
      confidence := 0.6,
      reasoning := "Fallback categorization for " ++ merchant,
      tags := [],
      is_recurring := false }

/-! ### Field extractor (src/ocr_processor.py): amount patterns -/

/-- Python regex class backslash-s (whitespace) membership for the receipt texts. -/
def py_space (c : Char) : Bool :=
  c = ' ' || c = '\t' || c = '\n' || c = '\r' || c = '\x0b' || c = '\x0c'

/-- Match the regex piece digits, dot, exactly two digits at the head of the
input; returns the matched characters and the rest of the input. -/
def match_num_cents (cs : List Char) : Option (List Char × List Char) :=
  let ds := cs.takeWhile Char.isDigit
  if ds.isEmpty then none
  else
    match cs.dropWhile Char.isDigit with
    | '.' :: d1 :: d2 :: rest =>
      if d1.isDigit && d2.isDigit then some (ds ++ '.' :: d1 :: [d2], rest) else none
    | _ => none

/-- Match digits with an optional dot-and-two-digits cent part at the head. -/
def match_num_opt_cents (cs : List Char) : Option (List Char × List Char) :=
  let ds := cs.takeWhile Char.isDigit
  if ds.isEmpty then none
  else
    match cs.dropWhile Char.isDigit with
    | '.' :: d1 :: d2 :: rest =>
      if d1.isDigit && d2.isDigit then some (ds ++ '.' :: d1 :: [d2], rest)
      else some (ds, '.' :: d1 :: d2 :: rest)
    | rest => some (ds, rest)

/-- Match the first amount pattern: dollar sign, optional whitespace, digits
with mandatory two-digit cents. -/
def match_dollar_cents : List Char → Option (List Char × List Char)
  | '$' :: rest => match_num_cents (rest.dropWhile py_space)
  | _ => none

/-- Match the extra dollar pattern of extract_amount: dollar sign, optional
whitespace, digits with optional two-digit cents. -/
def match_dollar_opt : List Char → Option (List Char × List Char)
  | '$' :: rest => match_num_opt_cents (rest.dropWhile py_space)
  | _ => none

/-- Case-insensitive literal match, returning the rest of the input. -/
def match_literal_ci : List Char → List Char → Option (List Char)
  | [], rest => some rest
  | _ :: _, [] => none
  | k :: ks, c :: cs => if k.toLower = c.toLower then match_literal_ci ks cs else none

/-- Match the keyword amount patterns (total or amount, then colons or
whitespace, an optional dollar sign, whitespace, digits with two-digit cents). -/
def match_keyword_amt (kw : List Char) (cs : List Char) : Option (List Char × List Char) :=
  match match_literal_ci kw cs with
  | none => none
  | some r1 =>
    let r2 := r1.dropWhile (fun c => c = ':' || py_space c)
    let r3 := match r2 with
      | '$' :: t => t
      | _ => r2
    match_num_cents (r3.dropWhile py_space)

/-- One scan step list as in re.findall: try the matcher at every position left
to right, emitting non-overlapping matches; fuel bounds the recursion and is
always supplied as length + 1, which is sufficient because every matcher
consumes at least one character. -/
def scan_matches (m : List Char → Option (List Char × List Char)) :
    Nat → List Char → List (List Char)
  | 0, _ => []
  | _ + 1, [] => []
  | fuel + 1, c :: t =>
    match m (c :: t) with
    | some (g, rest) => g :: scan_matches m fuel rest
    | none => scan_matches m fuel t

/-- All matches of one pattern over the text, in re.findall order. -/
def find_all (m : List Char → Option (List Char × List Char)) (text : String) :
    List (List Char) :=
  scan_matches m (text.data.length + 1) text.data

/-- Decimal digits to a natural number. -/
def digits_to_nat (ds : List Char) : Nat :=
  ds.foldl (fun a c => 10 * a + (c.toNat - 48)) 0

/-- Python float() on a matched amount group (digits with optional two-digit
cents), as an exact rational. -/
def parse_amount (g : List Char) : ℚ :=
  let whole := g.takeWhile Char.isDigit
  match g.dropWhile Char.isDigit with
  | '.' :: cents => (digits_to_nat whole : ℚ) + (digits_to_nat cents : ℚ) / 100
  | _ => (digits_to_nat whole : ℚ)

/-- The list of parsed numeric matches accumulated by OCRProcessor.extract_amount:
the three amount patterns in order, then the extra dollar pattern. -/
def amounts_of (text : String) : List ℚ :=
  (find_all match_dollar_cents text ++
   find_all (match_keyword_amt "total".data) text ++
   find_all (match_keyword_amt "amount".data) text ++
   find_all match_dollar_opt text).map parse_amount

/-- Python max() over a nonempty list. -/
def list_max : List ℚ → Option ℚ
  | [] => none
  | a :: t => some (t.foldl max a)

/-- OCRProcessor.extract_amount: the largest parsed amount, or none when no
pattern matched. -/
def extract_amount (text : String) : Option ℚ :=
  list_max (amounts_of text)

/-- The amount field filled into the record by OCRProcessor.extract_receipt_data:
the extracted amount, with none defaulted to zero. -/
def receipt_amount (text : String) : ℚ :=
  (extract_amount text).getD 0

/-! ### Agent memory (update_agent_memory in both orchestrators) -/

/-- update_agent_memory: append the new expense record and keep only the last
50 entries. -/
def update_agent_memory {α : Type} (recent_expenses : List α) (expense_data : α) :
    List α :=
  let appended := recent_expenses ++ [expense_data]
  if 50 < appended.length then appended.drop (appended.length - 50) else appended

/-! ### Image preprocessor (src/ocr_processor.py and
src/agents/receipt_scanner_agent.py)

The image library is an external collaborator: each enhancement step is an
oracle that either returns the enhanced image or raises (none). The source
rebinds the local variable image after each successful step and the except
branch returns that local, so a failure returns the last successful
intermediate. -/

/-- The enhancement operations used by preprocess_image, as oracles; none
models the step raising an exception. -/
structure ImageOps (Image : Type) where
  isRGB : Image → Bool
  convertRGB : Image → Option Image
  contrast : Image → Option Image
  sharpness : Image → Option Image
  brightness : Image → Option Image
  median : Image → Option Image

/-- OCRProcessor.preprocess_image (src/ocr_processor.py): RGB conversion,
contrast, sharpness, median filter; any raising step ends the chain and the
current value of the image local is returned. -/
def preprocess_image {Image : Type} (ops : ImageOps Image) (image : Image) : Image :=
  match (if ops.isRGB image then some image else ops.convertRGB image) with
  | none => image
  | some i1 =>
    match ops.contrast i1 with
    | none => i1
    | some i2 =>
      match ops.sharpness i2 with
      | none => i2
      | some i3 =>
        match ops.median i3 with
        | none => i3
        | some i4 => i4

/-- ReceiptScannerAgent.preprocess_image (src/agents/receipt_scanner_agent.py):
same chain with a brightness step before the median filter. -/
def preprocess_image_scanner {Image : Type} (ops : ImageOps Image) (image : Image) :
    Image :=
  match (if ops.isRGB image then some image else ops.convertRGB image) with
  | none => image
  | some i1 =>
    match ops.contrast i1 with
    | none => i1
    | some i2 =>
      match ops.sharpness i2 with
      | none => i2
      | some i3 =>
        match ops.brightness i3 with
        | none => i3
        | some i4 =>
          match ops.median i4 with
          | none => i4
          | some i5 => i5

/-! ### Budget generation (src/ai_agent_orchestrator.py and
src/agent_orchestrator.py) -/

/-- One entry of the expense history consumed by generate_budget_with_ai;
fields are read with dict get and may be absent. -/
structure HistEntry where
  amount : Option ℚ
  category : Option String
  date : Option String
  is_recurring : Option Bool

/-- Insert-or-add into an insertion-ordered association list, as Python
dict[k] = dict.get(k, 0) + v. -/
def add_to_assoc : List (String × ℚ) → String → ℚ → List (String × ℚ)
  | [], k, v => [(k, v)]
  | (k0, v0) :: t, k, v =>
    if k0 = k then (k0, v0 + v) :: t else (k0, v0) :: add_to_assoc t k v

/-- Python dict .get(k, 0) on the association list. -/
def assoc_get (l : List (String × ℚ)) (k : String) : ℚ :=
  ((l.find? (fun p => p.1 = k)).map Prod.snd).getD 0

/-- The per-category spending aggregate computed by generate_budget_with_ai. -/
def spending_categories (expense_history : List HistEntry) : List (String × ℚ) :=
  expense_history.foldl
    (fun acc e => add_to_assoc acc (e.category.getD "Other") (e.amount.getD 0)) []

/-- The per-month spending aggregate computed by generate_budget_with_ai
(month is the first seven characters of the date). -/
def monthly_spending (expense_history : List HistEntry) : List (String × ℚ) :=
  expense_history.foldl
    (fun acc e => add_to_assoc acc ((e.date.getD "").take 7) (e.amount.getD 0)) []

/-- months_count in generate_budget_with_ai: the number of distinct months,
or 1 when there is no monthly data. -/
def months_count (expense_history : List HistEntry) : Nat :=
  if (monthly_spending expense_history).isEmpty then 1
  else (monthly_spending expense_history).length

/-- One category line of the fallback budget. -/
structure BudgetCat where
  recommended : ℚ
  current : ℚ
  percentage : ℚ

/-- The budget_summary object of the fallback budget. -/
structure BudgetSummary where
  total_income : ℚ
  total_allocated : ℚ
  savings_target : ℚ
  emergency_fund_target : ℚ

/-- The deterministic budget object built by
AIAgentOrchestrator._fallback_budget_creation. -/
structure Budget where
  monthly_budget : List (String × BudgetCat)
  budget_summary : BudgetSummary
  recommendations : List String
  budget_health_score : Nat
  created_date : String

/-- AIAgentOrchestrator._fallback_budget_creation: hand-computed budget from
the income and the already-computed per-category spending aggregate; the
current date is passed in as today. -/
def fallback_budget_creation (income : ℚ) (current_spending : List (String × ℚ))
    (today : String) : Budget :=
  { monthly_budget :=
      [("Food & Dining",
        ⟨income * 0.15, assoc_get current_spending "Food & Dining", 0.15⟩),
       ("Groceries",
        ⟨income * 0.12, assoc_get current_spending "Groceries", 0.12⟩),
       ("Transportation & Gas",
        ⟨income * 0.15, assoc_get current_spending "Transportation & Gas", 0.15⟩),
       ("Utilities & Bills",
        ⟨income * 0.08, assoc_get current_spending "Utilities & Bills", 0.08⟩),
       ("Shopping & Retail",
        ⟨income * 0.10, assoc_get current_spending "Shopping & Retail", 0.10⟩),
       ("Entertainment & Recreation",
        ⟨income * 0.08, assoc_get current_spending "Entertainment & Recreation", 0.08⟩),
       ("Other",
        ⟨income * 0.12, assoc_get current_spending "Other", 0.12⟩)],
    budget_summary :=
      { total_income := income, total_allocated := income * 0.8,
        savings_target := income * 0.2, emergency_fund_target := income * 6 },
    recommendations :=
      ["Track all expenses to stay within budget limits",
       "Build an emergency fund with 6 months of expenses",
       "Review and adjust your budget monthly based on actual spending"],
    budget_health_score := 75,
    created_date := today }

/-- The value returned by generate_budget_with_ai: either the parsed AI budget
JSON with created_date and data_months attached, or the deterministic
fallback object. -/
inductive BudgetOutput (Raw : Type) where
  | fromAI (raw : Raw) (created_date : String) (data_months : Nat)
  | fallback (b : Budget)

/-- AIAgentOrchestrator.generate_budget_with_ai (src/ai_agent_orchestrator.py):
the oracle is the parsed AI budget JSON, or none when the call or the parse
raised; on failure the deterministic fallback is returned. -/
def generate_budget_with_ai {Raw : Type} (response : Option Raw) (income : ℚ)
    (expense_history : List HistEntry) (today : String) : BudgetOutput Raw :=
  match response with
  | some raw => .fromAI raw today (months_count expense_history)
  | none =>
    .fallback (fallback_budget_creation income (spending_categories expense_history) today)

/-- AIAgentOrchestrator.generate_budget_with_ai as written in
src/agent_orchestrator.py: the except branch only prints and falls off the
end of the function, returning Python None (modelled as none). -/
def generate_budget_with_ai_v2 {Raw : Type} (response : Option Raw) (_income : ℚ)
    (expense_history : List HistEntry) (today : String) : Option (BudgetOutput Raw) :=
  match response with
  | some raw => some (.fromAI raw today (months_count expense_history))
  | none => none

/-! ### Data manager (src/data_manager.py)

The JSON file holds a flat array of expense records; pandas date parsing is an
external collaborator modelled as the norm parameter, and the current time as
the now parameter. -/

/-- One persisted expense record; the three optional fields may be absent in
legacy data and are backfilled by load_expenses. -/
structure StoredRec where
  date : String
  merchant : String
  amount : ℚ
  category : String
  confidence : ℚ
  description : String
  ai_tags : Option (List String)
  is_recurring : Option Bool
  timestamp : Option String
deriving DecidableEq

/-- Agreement of two records on the four claimed round-trip fields: merchant,
amount, date and category. -/
def core_fields_eq (a b : StoredRec) : Prop :=
  a.merchant = b.merchant ∧ a.amount = b.amount ∧ a.date = b.date ∧
  a.category = b.category

/-- Backfill of the ai_tags column: pandas adds the column (with empty lists)
only when no record has the field. -/
def backfill_tags (l : List StoredRec) : List StoredRec :=
  if l.all (fun r => r.ai_tags = none) then
    l.map (fun r => { r with ai_tags := some [] })
  else l

/-- Backfill of the is_recurring column with false when it is absent everywhere. -/
def backfill_recurring (l : List StoredRec) : List StoredRec :=
  if l.all (fun r => r.is_recurring = none) then
    l.map (fun r => { r with is_recurring := some false })
  else l

/-- Backfill of the timestamp column with the current time when it is absent
everywhere. -/
def backfill_timestamp (now : String) (l : List StoredRec) : List StoredRec :=
  if l.all (fun r => r.timestamp = none) then
    l.map (fun r => { r with timestamp := some now })
  else l

/-- Insert one record into a list sorted by date descending. -/
def insert_by_date_desc (r : StoredRec) : List StoredRec → List StoredRec
  | [] => [r]
  | x :: t => if x.date < r.date then r :: x :: t else x :: insert_by_date_desc r t

/-- df.sort_values by date, descending. -/
def sort_by_date_desc (l : List StoredRec) : List StoredRec :=
  l.foldr insert_by_date_desc []

/-- DataManager.load_expenses: empty store loads as the empty frame; otherwise
dates are normalized (norm models pandas to_datetime plus strftime), missing
columns are backfilled, and the frame is sorted by date descending. -/
def load_expenses (norm : String → String) (now : String) (store : List StoredRec) :
    List StoredRec :=
  if store = [] then []
  else
    sort_by_date_desc
      (backfill_timestamp now
        (backfill_recurring
          (backfill_tags (store.map (fun r => { r with date := norm r.date })))))

/-- DataManager.add_expense: load the store, stamp the new record with the
current time, append it and save. -/
def add_expense (norm : String → String) (now : String) (store : List StoredRec)
    (expense_data : StoredRec) : List StoredRec :=
  load_expenses norm now store ++ [{ expense_data with timestamp := some now }]

/-- Replace the element at one position, as the iloc assignment of
update_expense does. -/
def modify_at (f : StoredRec → StoredRec) : List StoredRec → Nat → List StoredRec
  | [], _ => []
  | x :: t, 0 => f x :: t
  | x :: t, n + 1 => x :: modify_at f t n

/-- DataManager.delete_expense: when the index is inside the loaded frame, drop
that row and save; otherwise return False with the persisted store untouched. -/
def delete_expense (norm : String → String) (now : String) (store : List StoredRec)
    (index : ℤ) : Bool × List StoredRec :=
  let df := load_expenses norm now store
  if 0 ≤ index ∧ index < (df.length : ℤ) then (true, df.eraseIdx index.toNat)
  else (false, store)

/-- DataManager.update_expense: when the index is inside the loaded frame,
assign the updated fields at that row and save; otherwise return False with
the persisted store untouched. The upd argument models the dict of updated
fields applied to a row. -/
def update_expense (norm : String → String) (now : String) (store : List StoredRec)
    (index : ℤ) (upd : StoredRec → StoredRec) : Bool × List StoredRec :=
  let df := load_expenses norm now store
  if 0 ≤ index ∧ index < (df.length : ℤ) then (true, modify_at upd df index.toNat)
  else (false, store)

/-! ### Concrete sample data used by witnesses and counterexamples -/

/-- A receipt text with three dollar amounts, for evaluating extract_amount. -/
def sample_receipt_text : String := "Lunch $12 coffee $3 TOTAL $45"

/-- A receipt text with a total amount but no dollar sign anywhere. -/
def no_dollar_text : String := "Total: 45.00"

/-- Enhancement oracles over natural-number images where the contrast step
succeeds and changes the image but the sharpness step raises. -/
def failing_sharpness_ops : ImageOps Nat :=
  { isRGB := fun _ => true
    convertRGB := fun i => some i
    contrast := fun i => some (i + 1)
    sharpness := fun _ => none
    brightness := fun _ => none
    median := fun i => some i }

/-- A concrete stored expense record with an ISO date. -/
def sample_grocery_record : StoredRec :=
  { date := "2024-01-15", merchant := "Walmart", amount := 45.67,
    category := "Groceries", confidence := 0.75, description := "weekly shopping",
    ai_tags := none, is_recurring := none, timestamp := none }

/-- A second concrete stored expense record used by the index-bounds witness. -/
def sample_pharmacy_record : StoredRec :=
  { date := "2024-02-03", merchant := "CVS", amount := 12.99,
    category := "Healthcare & Medical", confidence := 0.8, description := "",
    ai_tags := some [], is_recurring := some false, timestamp := some "t" }

/-! ## Helper lemmas -/

theorem pick_max_score_mem (xs : List (String × Nat)) (x : String × Nat) :
    pick_max_score x xs ∈ x :: xs := by
  induction xs generalizing x with
  | nil => simp [pick_max_score]
  | cons y ys ih =>
    have h := ih (if x.2 < y.2 then y else x)
    have hstep : pick_max_score x (y :: ys) =
        pick_max_score (if x.2 < y.2 then y else x) ys := by
      simp [pick_max_score]
    rw [hstep]
    rcases List.mem_cons.mp h with h1 | h1
    · rw [h1]
      split
      · exact List.mem_cons_of_mem _ (List.mem_cons_self _ _)
      · exact List.mem_cons_self _ _
    · exact List.mem_cons_of_mem _ (List.mem_cons_of_mem _ h1)

theorem keys_sub_categories : ∀ c ∈ category_keywords.map Prod.fst, c ∈ categories := by
  decide

theorem category_scores_of_keys {merchant : String} {items : List String}
    {p : String × Nat} (hp : p ∈ category_scores_of merchant items) :
    p.1 ∈ category_keywords.map Prod.fst := by
  unfold category_scores_of at hp
  have hp2 := List.mem_of_mem_filter hp
  rcases List.mem_map.mp hp2 with ⟨q, hq, hqe⟩
  rw [← hqe]
  exact List.mem_map.mpr ⟨q, hq, rfl⟩

theorem rule_based_categorization_mem {merchant : String} {items : List String}
    {c : String} (h : rule_based_categorization merchant items = some c) :
    c ∈ categories := by
  unfold rule_based_categorization at h
  rcases hsc : category_scores_of merchant items with _ | ⟨x, xs⟩
  · rw [hsc] at h; exact absurd h (by simp)
  · rw [hsc] at h
    have hm : pick_max_score x xs ∈ x :: xs := pick_max_score_mem xs x
    rw [← hsc] at hm
    have := category_scores_of_keys hm
    have hc : (pick_max_score x xs).1 = c := by
      simpa using h
    rw [hc] at this
    exact keys_sub_categories c this

theorem ai_categorization_some (p : AIRawCat) :
    ai_categorization (some p) =
      some { category :=
               if p.category.getD "Other" ∈ categories then p.category.getD "Other"
               else "Other",
             reasoning := p.reasoning.getD "",
             confidence := p.confidence.getD 0.7 } := rfl

theorem ai_categorization_mem {o : Option AIRawCat} {a : AIResultCat}
    (h : ai_categorization o = some a) : a.category ∈ categories := by
  cases o with
  | none => exact absurd h (by simp [ai_categorization])
  | some p =>
    rw [ai_categorization_some] at h
    have ha := (Option.some.inj h).symm
    rw [ha]
    by_cases hmem : p.category.getD "Other" ∈ categories
    · simpa [hmem] using hmem
    · simp only [hmem, if_false]
      decide

theorem fallback_categorization_mem (merchant : String) (items : List String) :
    fallback_categorization merchant items ∈ categories := by
  simp only [fallback_categorization]
  split
  · decide
  · split
    · decide
    · split
      · decide
      · decide

theorem fallback_categorize_mem (merchant : String) (items : List String) :
    fallback_categorize merchant items ∈ valid_categories := by
  simp only [fallback_categorize]
  split
  · decide
  · split
    · decide
    · split
      · decide
      · split
        · decide
        · decide

theorem combine_categorization_results_mem {rb : Option String}
    {ai : Option AIResultCat} (merchant : String) (items : List String)
    (hrb : ∀ r, rb = some r → r ∈ categories)
    (hai : ∀ a, ai = some a → a.category ∈ categories) :
    (combine_categorization_results rb ai merchant items).1 ∈ categories := by
  cases rb with
  | none =>
    cases ai with
    | none =>
      simpa [combine_categorization_results] using fallback_categorization_mem merchant items
    | some a =>
      simpa [combine_categorization_results] using hai a rfl
  | some r =>
    cases ai with
    | none => simpa [combine_categorization_results] using hrb r rfl
    | some a =>
      simp only [combine_categorization_results]
      split
      · simpa using hrb r rfl
      · simpa using hai a rfl

theorem categorize_expense_with_ai_mem (merchant : String) (amount : ℚ)
    (items : List String) (response : Option AIRawCat2) :
    (categorize_expense_with_ai merchant amount items response).category ∈
      valid_categories := by
  cases response with
  | none => simpa [categorize_expense_with_ai] using fallback_categorize_mem merchant items
  | some p =>
    cases hc : p.category with
    | none =>
      simpa [categorize_expense_with_ai, hc] using fallback_categorize_mem merchant items
    | some c0 =>
      by_cases hmem : c0 ∈ valid_categories
      · simpa [categorize_expense_with_ai, hc, hmem] using hmem
      · simpa [categorize_expense_with_ai, hc, hmem] using
          fallback_categorize_mem merchant items

/-! ## Claim theorems -/

/-- C1: for every input, the category returned by categorize_expense and by
categorize_expense_with_ai is a member of the fixed 13-element category set;
when the parsed AI response carries an out-of-set category, the categorization
agent's AI pass substitutes Other, and the orchestrator substitutes the
keyword-based fallback guess. -/
theorem categorization_category_in_fixed_set
    (merchant merchant2 : String) (amount amount2 : ℚ)
    (items items2 previous_categories : List String)
    (response : Option AIRawCat) (response2 : Option AIRawCat2) :
    (categorize_expense merchant amount items previous_categories response).category ∈
      categories ∧
    (categorize_expense_with_ai merchant2 amount2 items2 response2).category ∈
      valid_categories ∧
    (∀ p c0, response = some p → p.category = some c0 → c0 ∉ categories →
      ∀ a, ai_categorization response = some a → a.category = "Other") ∧
    (∀ p c0, response2 = some p → p.category = some c0 → c0 ∉ valid_categories →
      (categorize_expense_with_ai merchant2 amount2 items2 response2).category =
        fallback_categorize merchant2 items2) := by
  refine ⟨?_, categorize_expense_with_ai_mem merchant2 amount2 items2 response2, ?_, ?_⟩
  · have hcat : (categorize_expense merchant amount items previous_categories
        response).category =
        (combine_categorization_results (rule_based_categorization merchant items)
          (ai_categorization response) merchant items).1 := rfl
    rw [hcat]
    exact combine_categorization_results_mem merchant items
      (fun r hr => rule_based_categorization_mem hr)
      (fun a ha => ai_categorization_mem ha)
  · intro p c0 hresp hcat hnot a ha
    subst hresp
    rw [ai_categorization_some] at ha
    have ha2 := (Option.some.inj ha).symm
    rw [ha2]
    simp [hcat, hnot]
  · intro p c0 hresp hcat hnot
    subst hresp
    simp [categorize_expense_with_ai, hcat, hnot]

/-- Closed witness for C1: a concrete out-of-set AI answer is coerced back into
the fixed set. -/
theorem categorization_category_in_fixed_set_witness :
    (categorize_expense "Walmart" 45 [] []
      (some { category := some "Bogus Category", reasoning := none,
              confidence := none })).category ∈ categories ∧
    (categorize_expense_with_ai "Quickmart" 10 []
      (some { category := some "Pets", confidence := none, reasoning := none,
              tags := none, is_recurring := none })).category =
      fallback_categorize "Quickmart" [] := by
  have h := categorization_category_in_fixed_set "Walmart" "Quickmart" 45 10 [] [] []
    (some { category := some "Bogus Category", reasoning := none, confidence := none })
    (some { category := some "Pets", confidence := none, reasoning := none,
            tags := none, is_recurring := none })
  exact ⟨h.1, h.2.2.2 _ "Pets" rfl rfl (by decide)⟩

/-- C2: when the rule-based pass and the AI pass agree on a category, the
reconciler returns that category with confidence min(0.95, AI confidence + 0.1). -/
theorem combine_agreement_confidence (r : String) (a : AIResultCat)
    (merchant : String) (items : List String) (h : r = a.category) :
    combine_categorization_results (some r) (some a) merchant items =
      (r, min 0.95 (a.confidence + 0.1)) := by
  simp only [combine_categorization_results]
  rw [if_pos h]

/-- Closed witness for C2, matching the spec example: agreement at AI confidence
0.8 yields confidence 0.9. -/
theorem combine_agreement_confidence_witness :
    combine_categorization_results (some "Food & Dining")
      (some { category := "Food & Dining", reasoning := "", confidence := 0.8 })
      "Cafe Rio" [] = ("Food & Dining", min 0.95 (0.8 + 0.1)) ∧
    min (0.95 : ℚ) (0.8 + 0.1) = 0.9 :=
  ⟨combine_agreement_confidence _ _ _ _ rfl, by norm_num⟩

/-- C3: when both passes produced a category but they differ, the reconciler
returns the AI category with confidence max(0.7, AI confidence - 0.1). -/
theorem combine_disagreement_confidence (r : String) (a : AIResultCat)
    (merchant : String) (items : List String) (h : r ≠ a.category) :
    combine_categorization_results (some r) (some a) merchant items =
      (a.category, max 0.7 (a.confidence - 0.1)) := by
  simp only [combine_categorization_results]
  rw [if_neg h]

/-- Closed witness for C3, matching the spec example: disagreement at AI
confidence 0.8 yields the AI category with confidence 0.7. -/
theorem combine_disagreement_confidence_witness :
    combine_categorization_results (some "Groceries")
      (some { category := "Food & Dining", reasoning := "", confidence := 0.8 })
      "Cafe Rio" [] = ("Food & Dining", max 0.7 (0.8 - 0.1)) ∧
    max (0.7 : ℚ) (0.8 - 0.1) = 0.7 :=
  ⟨combine_disagreement_confidence _ _ _ _ (by decide), by norm_num⟩

theorem foldl_max_mem : ∀ (t : List ℚ) (a : ℚ), t.foldl max a ∈ a :: t := by
  intro t
  induction t with
  | nil => intro a; simp
  | cons b l ih =>
    intro a
    have h := ih (max a b)
    simp only [List.foldl_cons]
    rcases List.mem_cons.mp h with h1 | h1
    · rcases max_choice a b with hm | hm
      · rw [h1, hm]; exact List.mem_cons_self _ _
      · rw [h1, hm]; exact List.mem_cons_of_mem _ (List.mem_cons_self _ _)
    · exact List.mem_cons_of_mem _ (List.mem_cons_of_mem _ h1)

theorem init_le_foldl_max : ∀ (t : List ℚ) (a : ℚ), a ≤ t.foldl max a := by
  intro t
  induction t with
  | nil => intro a; simp
  | cons b l ih =>
    intro a
    simp only [List.foldl_cons]
    exact le_trans (le_max_left a b) (ih (max a b))

theorem le_foldl_max : ∀ (t : List ℚ) (a x : ℚ), x ∈ a :: t → x ≤ t.foldl max a := by
  intro t
  induction t with
  | nil =>
    intro a x hx
    simp only [List.mem_singleton] at hx
    simp [hx]
  | cons b l ih =>
    intro a x hx
    simp only [List.foldl_cons]
    rcases List.mem_cons.mp hx with h1 | h1
    · rw [h1]
      exact le_trans (le_max_left a b) (init_le_foldl_max l (max a b))
    · rcases List.mem_cons.mp h1 with h2 | h2
      · rw [h2]
        exact le_trans (le_max_right a b) (init_le_foldl_max l (max a b))
      · exact ih (max a b) x (List.mem_cons_of_mem _ h2)

/-- C4: whenever the amount patterns produce at least one numeric match,
extract_amount returns the maximum of all parsed numeric matches. -/
theorem extract_amount_is_max (text : String) (h : amounts_of text ≠ []) :
    ∃ m, extract_amount text = some m ∧ m ∈ amounts_of text ∧
      ∀ a ∈ amounts_of text, a ≤ m := by
  rcases hamt : amounts_of text with _ | ⟨a, t⟩
  · exact absurd hamt h
  · refine ⟨t.foldl max a, ?_, ?_, ?_⟩
    · simp [extract_amount, list_max, hamt]
    · exact foldl_max_mem t a
    · intro x hx; exact le_foldl_max t a x hx

/-- Closed witness for C4: on a receipt text with amounts 12, 3 and 45 the
extractor returns 45. -/
theorem extract_amount_is_max_witness :
    amounts_of sample_receipt_text ≠ [] ∧
    extract_amount sample_receipt_text = some 45 ∧
    (∃ m, extract_amount sample_receipt_text = some m ∧
      m ∈ amounts_of sample_receipt_text ∧
      ∀ a ∈ amounts_of sample_receipt_text, a ≤ m) :=
  ⟨by decide, by decide, extract_amount_is_max sample_receipt_text (by decide)⟩

theorem parse_amount_nonneg (g : List Char) : 0 ≤ parse_amount g := by
  simp only [parse_amount]
  split
  · positivity
  · positivity

theorem extract_amount_mem {text : String} {m : ℚ}
    (h : extract_amount text = some m) : m ∈ amounts_of text := by
  rcases hamt : amounts_of text with _ | ⟨a, t⟩
  · have h2 : extract_amount text = none := by
      unfold extract_amount
      rw [hamt]
      rfl
    rw [h2] at h
    exact absurd h (by simp)
  · have h2 : extract_amount text = some (t.foldl max a) := by
      unfold extract_amount
      rw [hamt]
      rfl
    rw [h2] at h
    exact (Option.some.inj h) ▸ foldl_max_mem t a

theorem amounts_of_nonneg {text : String} {x : ℚ} (hx : x ∈ amounts_of text) :
    0 ≤ x := by
  unfold amounts_of at hx
  rcases List.mem_map.mp hx with ⟨g, _, hg⟩
  rw [← hg]
  exact parse_amount_nonneg g

theorem no_dollar_groups :
    (find_all match_dollar_cents no_dollar_text ++
     find_all (match_keyword_amt "total".data) no_dollar_text ++
     find_all (match_keyword_amt "amount".data) no_dollar_text ++
     find_all match_dollar_opt no_dollar_text) =
    [['4', '5', '.', '0', '0']] := by decide

theorem parse_amount_4500 : parse_amount ['4', '5', '.', '0', '0'] = 45 := by
  have h1 : List.dropWhile Char.isDigit ['4', '5', '.', '0', '0'] = ['.', '0', '0'] := by
    decide
  have h2 : List.takeWhile Char.isDigit ['4', '5', '.', '0', '0'] = ['4', '5'] := by
    decide
  have h3 : digits_to_nat ['4', '5'] = 45 := by decide
  have h4 : digits_to_nat ['0', '0'] = 0 := by decide
  simp only [parse_amount, h1, h2, h3, h4]
  norm_num

/-- C5 counterexample: the claim as stated is false; a text containing no
dollar sign at all still yields a nonzero amount through the total keyword
pattern. -/
theorem receipt_amount_no_dollar_counterexample :
    ('$' ∉ no_dollar_text.data) ∧ receipt_amount no_dollar_text = 45 ∧
    (45 : ℚ) ≠ 0 := by
  refine ⟨by decide, ?_, by norm_num⟩
  unfold receipt_amount extract_amount amounts_of
  rw [no_dollar_groups]
  simp [list_max, parse_amount_4500]

/-- C5 amended: for every raw text on which no amount pattern matches (neither
a dollar-prefixed number nor a number after total or amount), the amount field
of the extracted record is exactly 0; and the amount field is never negative
and never missing (the extractor is total with default 0). -/
theorem receipt_amount_default_zero_nonneg (text : String) :
    (amounts_of text = [] → receipt_amount text = 0) ∧ 0 ≤ receipt_amount text := by
  constructor
  · intro h
    simp [receipt_amount, extract_amount, list_max, h]
  · unfold receipt_amount
    rcases hamt : extract_amount text with _ | m
    · simp
    · simp only [Option.getD_some]
      exact amounts_of_nonneg (extract_amount_mem hamt)

/-- Closed witness for C5 amended: a text with no amount patterns yields
exactly 0. -/
theorem receipt_amount_default_zero_nonneg_witness :
    amounts_of "no numbers here" = [] ∧ receipt_amount "no numbers here" = 0 ∧
    0 ≤ receipt_amount "no numbers here" :=
  ⟨by decide, (receipt_amount_default_zero_nonneg "no numbers here").1 (by decide),
   (receipt_amount_default_zero_nonneg "no numbers here").2⟩

theorem update_agent_memory_eq_drop {α : Type} (l : List α) (e : α) :
    update_agent_memory l e = (l ++ [e]).drop ((l ++ [e]).length - 50) := by
  simp only [update_agent_memory]
  by_cases h : 50 < (l ++ [e]).length
  · rw [if_pos h]
  · rw [if_neg h]
    have h0 : (l ++ [e]).length - 50 = 0 := by omega
    rw [h0, List.drop_zero]

theorem foldl_update_agent_memory {α : Type} :
    ∀ (es l : List α), l.length ≤ 50 →
      es.foldl update_agent_memory l = (l ++ es).drop ((l ++ es).length - 50) := by
  intro es
  induction es with
  | nil =>
    intro l hl
    simp only [List.foldl_nil, List.append_nil]
    have h0 : l.length - 50 = 0 := by omega
    rw [h0, List.drop_zero]
  | cons e es ih =>
    intro l hl
    simp only [List.foldl_cons]
    rw [update_agent_memory_eq_drop]
    have hd : (l ++ [e]).length - 50 ≤ (l ++ [e]).length := by omega
    have hlen : ((l ++ [e]).drop ((l ++ [e]).length - 50)).length ≤ 50 := by
      rw [List.length_drop]; omega
    rw [ih _ hlen]
    have hassoc : l ++ e :: es = (l ++ [e]) ++ es := by simp
    rw [hassoc]
    rw [← List.drop_append_of_le_length hd, List.drop_drop]
    congr 1
    rw [List.length_append, List.length_append, List.length_drop, List.length_append]
    simp only [List.length_append, List.length_singleton]
    omega

/-- C6: starting from the empty memory, 55 sequential update_agent_memory calls
leave exactly the last 50 appended records in original relative order, and the
memory length never exceeds 50 after any update. -/
theorem agent_memory_last_fifty {α : Type} (es : List α) (h : es.length = 55) :
    es.foldl update_agent_memory [] = es.drop 5 ∧
    ∀ n, n ≤ 55 → ((es.take n).foldl update_agent_memory []).length ≤ 50 := by
  constructor
  · have hf := foldl_update_agent_memory es [] (by simp)
    simpa [h] using hf
  · intro n hn
    have hf := foldl_update_agent_memory (es.take n) [] (by simp)
    rw [hf]
    simp only [List.nil_append, List.length_drop]
    omega

/-- Closed witness for C6: 55 numbered records leave records 5 through 54. -/
theorem agent_memory_last_fifty_witness :
    (List.range 55).foldl update_agent_memory [] = (List.range 55).drop 5 ∧
    ∀ n, n ≤ 55 → (((List.range 55).take n).foldl update_agent_memory []).length ≤ 50 :=
  agent_memory_last_fifty (List.range 55) (by decide)

/-- C7 counterexample: the claim as stated is false; when the contrast step
succeeds (changing the image) and the sharpness step then raises, the returned
image is the contrast-enhanced intermediate, not the original input. -/
theorem preprocess_image_partial_counterexample :
    failing_sharpness_ops.sharpness 1 = none ∧
    preprocess_image failing_sharpness_ops 0 = 1 ∧ (1 : Nat) ≠ 0 :=
  ⟨rfl, rfl, by decide⟩

/-- C7 amended: preprocess_image never raises, and when an enhancement step
fails the returned image is the input of the failing step, that is the last
successfully produced intermediate, which is the original image exactly when
no step had yet succeeded; when every step succeeds, the fully enhanced image
is returned. Both the OCRProcessor version and the ReceiptScannerAgent version
satisfy this. -/
theorem preprocess_image_returns_last_success {Image : Type} (ops : ImageOps Image)
    (image : Image) :
    ((if ops.isRGB image then some image else ops.convertRGB image) = none →
      preprocess_image ops image = image ∧
      preprocess_image_scanner ops image = image) ∧
    (∀ i1, (if ops.isRGB image then some image else ops.convertRGB image) = some i1 →
      (ops.contrast i1 = none →
        preprocess_image ops image = i1 ∧
        preprocess_image_scanner ops image = i1) ∧
      (∀ i2, ops.contrast i1 = some i2 →
        (ops.sharpness i2 = none →
          preprocess_image ops image = i2 ∧
          preprocess_image_scanner ops image = i2) ∧
        (∀ i3, ops.sharpness i2 = some i3 →
          ((ops.median i3 = none → preprocess_image ops image = i3) ∧
           (∀ i4, ops.median i3 = some i4 → preprocess_image ops image = i4)) ∧
          ((ops.brightness i3 = none → preprocess_image_scanner ops image = i3) ∧
           (∀ i4, ops.brightness i3 = some i4 →
             (ops.median i4 = none → preprocess_image_scanner ops image = i4) ∧
             (∀ i5, ops.median i4 = some i5 →
               preprocess_image_scanner ops image = i5)))))) := by
  constructor
  · intro h0
    exact ⟨by simp [preprocess_image, h0], by simp [preprocess_image_scanner, h0]⟩
  · intro i1 h1
    constructor
    · intro hc
      exact ⟨by simp [preprocess_image, h1, hc],
             by simp [preprocess_image_scanner, h1, hc]⟩
    · intro i2 h2
      constructor
      · intro hs
        exact ⟨by simp [preprocess_image, h1, h2, hs],
               by simp [preprocess_image_scanner, h1, h2, hs]⟩
      · intro i3 h3
        constructor
        · constructor
          · intro hm
            simp [preprocess_image, h1, h2, h3, hm]
          · intro i4 hm
            simp [preprocess_image, h1, h2, h3, hm]
        · constructor
          · intro hb
            simp [preprocess_image_scanner, h1, h2, h3, hb]
          · intro i4 hb
            constructor
            · intro hm
              simp [preprocess_image_scanner, h1, h2, h3, hb, hm]
            · intro i5 hm
              simp [preprocess_image_scanner, h1, h2, h3, hb, hm]

/-- Closed witness for C7 amended: with a failing sharpness step both versions
return the contrast-enhanced intermediate. -/
theorem preprocess_image_returns_last_success_witness :
    preprocess_image failing_sharpness_ops 0 = 1 ∧
    preprocess_image_scanner failing_sharpness_ops 0 = 1 :=
  (((preprocess_image_returns_last_success failing_sharpness_ops 0).2 0 rfl).2 1 rfl).1
    rfl

/-- C8: evaluation at the failing input. On call or parse failure the
ai_agent_orchestrator version returns the deterministic fallback budget built
from the already-computed aggregates, but the agent_orchestrator version falls
off the end of its except branch and returns Python None. -/
theorem generate_budget_failure_branch {Raw : Type} (income : ℚ)
    (expense_history : List HistEntry) (today : String) :
    @generate_budget_with_ai Raw none income expense_history today =
      .fallback (fallback_budget_creation income
        (spending_categories expense_history) today) ∧
    @generate_budget_with_ai_v2 Raw none income expense_history today =
      none :=
  ⟨rfl, rfl⟩

theorem core_fields_eq_refl (r : StoredRec) : core_fields_eq r r :=
  ⟨rfl, rfl, rfl, rfl⟩

theorem core_fields_eq_trans {a b c : StoredRec} (h1 : core_fields_eq a b)
    (h2 : core_fields_eq b c) : core_fields_eq a c :=
  ⟨h1.1.trans h2.1, h1.2.1.trans h2.2.1, h1.2.2.1.trans h2.2.2.1,
   h1.2.2.2.trans h2.2.2.2⟩

theorem mem_insert_by_date_desc (r x : StoredRec) (l : List StoredRec) :
    x ∈ insert_by_date_desc r l ↔ x = r ∨ x ∈ l := by
  induction l with
  | nil => simp [insert_by_date_desc]
  | cons y t ih =>
    simp only [insert_by_date_desc]
    split
    · simp only [List.mem_cons]
    · simp only [List.mem_cons, ih]
      tauto

theorem mem_sort_by_date_desc {x : StoredRec} {l : List StoredRec} (hx : x ∈ l) :
    x ∈ sort_by_date_desc l := by
  induction l with
  | nil => simp at hx
  | cons y t ih =>
    have hstep : sort_by_date_desc (y :: t) =
        insert_by_date_desc y (sort_by_date_desc t) := rfl
    rw [hstep, mem_insert_by_date_desc]
    rcases List.mem_cons.mp hx with h | h
    · exact Or.inl h
    · exact Or.inr (ih h)

theorem backfill_tags_core {l : List StoredRec} {x : StoredRec} (hx : x ∈ l) :
    ∃ y ∈ backfill_tags l, core_fields_eq y x := by
  unfold backfill_tags
  split
  · exact ⟨{ x with ai_tags := some [] },
      List.mem_map_of_mem _ hx, ⟨rfl, rfl, rfl, rfl⟩⟩
  · exact ⟨x, hx, core_fields_eq_refl x⟩

theorem backfill_recurring_core {l : List StoredRec} {x : StoredRec} (hx : x ∈ l) :
    ∃ y ∈ backfill_recurring l, core_fields_eq y x := by
  unfold backfill_recurring
  split
  · exact ⟨{ x with is_recurring := some false },
      List.mem_map_of_mem _ hx, ⟨rfl, rfl, rfl, rfl⟩⟩
  · exact ⟨x, hx, core_fields_eq_refl x⟩

theorem backfill_timestamp_core (now : String) {l : List StoredRec}
    {x : StoredRec} (hx : x ∈ l) :
    ∃ y ∈ backfill_timestamp now l, core_fields_eq y x := by
  unfold backfill_timestamp
  split
  · exact ⟨{ x with timestamp := some now },
      List.mem_map_of_mem _ hx, ⟨rfl, rfl, rfl, rfl⟩⟩
  · exact ⟨x, hx, core_fields_eq_refl x⟩

theorem load_expenses_core (norm : String → String) (now : String)
    {store : List StoredRec} {x : StoredRec} (hx : x ∈ store) (hne : store ≠ []) :
    ∃ y ∈ load_expenses norm now store,
      y.merchant = x.merchant ∧ y.amount = x.amount ∧ y.date = norm x.date ∧
      y.category = x.category := by
  unfold load_expenses
  rw [if_neg hne]
  have hx1 : ({ x with date := norm x.date } : StoredRec) ∈
      store.map (fun r => { r with date := norm r.date }) :=
    List.mem_map_of_mem _ hx
  obtain ⟨y1, hy1, hc1⟩ := backfill_tags_core hx1
  obtain ⟨y2, hy2, hc2⟩ := backfill_recurring_core hy1
  obtain ⟨y3, hy3, hc3⟩ := backfill_timestamp_core now hy2
  have hc : core_fields_eq y3 { x with date := norm x.date } :=
    core_fields_eq_trans hc3 (core_fields_eq_trans hc2 hc1)
  exact ⟨y3, mem_sort_by_date_desc hy3, hc.1, hc.2.1, hc.2.2.1, hc.2.2.2⟩

/-- C9: saving an expense record through add_expense and reloading the
persisted store yields a record whose merchant, amount, date and category
equal the saved values, provided the record's date is fixed by the pandas
date normalization (as every ISO date is). -/
theorem add_expense_roundtrip (norm : String → String) (now now2 : String)
    (store : List StoredRec) (e : StoredRec) (hdate : norm e.date = e.date) :
    ∃ r ∈ load_expenses norm now2 (add_expense norm now store e),
      r.merchant = e.merchant ∧ r.amount = e.amount ∧ r.date = e.date ∧
      r.category = e.category := by
  have hmem : ({ e with timestamp := some now } : StoredRec) ∈
      add_expense norm now store e := by
    unfold add_expense
    exact List.mem_append_right _ (by simp)
  have hne : add_expense norm now store e ≠ [] := by
    unfold add_expense
    simp
  obtain ⟨r, hr, hm, ha, hd, hc⟩ := load_expenses_core norm now2 hmem hne
  have hd2 : r.date = norm e.date := hd
  rw [hdate] at hd2
  exact ⟨r, hr, hm, ha, hd2, hc⟩

/-- Closed witness for C9: a concrete record with an ISO date round-trips. -/
theorem add_expense_roundtrip_witness :
    ∃ r ∈ load_expenses (fun s => s) "t2"
        (add_expense (fun s => s) "t1" [] sample_grocery_record),
      r.merchant = sample_grocery_record.merchant ∧
      r.amount = sample_grocery_record.amount ∧
      r.date = sample_grocery_record.date ∧
      r.category = sample_grocery_record.category :=
  add_expense_roundtrip (fun s => s) "t1" "t2" [] sample_grocery_record rfl

theorem getElem_eraseIdx_of_lt {α : Type} :
    ∀ (l : List α) (n j : Nat), j < n → (l.eraseIdx n)[j]? = l[j]? := by
  intro l
  induction l with
  | nil => intro n j _; rw [List.eraseIdx_nil]
  | cons y t ih =>
    intro n j hj
    cases n with
    | zero => omega
    | succ m =>
      rw [List.eraseIdx_cons_succ]
      cases j with
      | zero => simp
      | succ k =>
        rw [List.getElem?_cons_succ, List.getElem?_cons_succ]
        exact ih m k (by omega)

theorem getElem_eraseIdx_of_ge {α : Type} :
    ∀ (l : List α) (n j : Nat), n ≤ j → (l.eraseIdx n)[j]? = l[j + 1]? := by
  intro l
  induction l with
  | nil => intro n j _; rw [List.eraseIdx_nil]; simp
  | cons y t ih =>
    intro n j hn
    cases n with
    | zero => rw [List.eraseIdx_cons_zero, List.getElem?_cons_succ]
    | succ m =>
      cases j with
      | zero => omega
      | succ k =>
        rw [List.eraseIdx_cons_succ, List.getElem?_cons_succ,
          List.getElem?_cons_succ]
        exact ih m k (by omega)

/-- C10: for every index outside the valid range both delete_expense and
update_expense return False and leave the persisted store unchanged; at a
valid index delete_expense returns True and removes exactly the record at
that position of the loaded frame, keeping every other record (entries below
the index unchanged, entries above shifted down by one). -/
theorem delete_update_index_bounds (norm : String → String) (now : String)
    (store : List StoredRec) (index : ℤ) (upd : StoredRec → StoredRec) :
    (¬ (0 ≤ index ∧ index < ((load_expenses norm now store).length : ℤ)) →
      delete_expense norm now store index = (false, store) ∧
      update_expense norm now store index upd = (false, store)) ∧
    ((0 ≤ index ∧ index < ((load_expenses norm now store).length : ℤ)) →
      (delete_expense norm now store index).1 = true ∧
      (delete_expense norm now store index).2.length + 1 =
        (load_expenses norm now store).length ∧
      (∀ j : Nat, j < index.toNat →
        (delete_expense norm now store index).2[j]? =
          (load_expenses norm now store)[j]?) ∧
      (∀ j : Nat, index.toNat ≤ j →
        (delete_expense norm now store index).2[j]? =
          (load_expenses norm now store)[j + 1]?)) := by
  constructor
  · intro hinv
    constructor
    · simp only [delete_expense]
      rw [if_neg hinv]
    · simp only [update_expense]
      rw [if_neg hinv]
  · intro hval
    have hlt : index.toNat < (load_expenses norm now store).length := by omega
    refine ⟨?_, ?_, ?_, ?_⟩
    · simp only [delete_expense]
      rw [if_pos hval]
    · simp only [delete_expense]
      rw [if_pos hval]
      simp only [List.length_eraseIdx]
      rw [if_pos hlt]
      omega
    · intro j hj
      simp only [delete_expense]
      rw [if_pos hval]
      exact getElem_eraseIdx_of_lt _ _ _ hj
    · intro j hj
      simp only [delete_expense]
      rw [if_pos hval]
      exact getElem_eraseIdx_of_ge _ _ _ hj

/-- Closed witness for C10: index -1 on a one-record store is rejected with the
store unchanged, and index 0 deletes the single loaded record. -/
theorem delete_update_index_bounds_witness :
    (delete_expense (fun s => s) "T0" [sample_pharmacy_record] (-1) =
      (false, [sample_pharmacy_record]) ∧
     update_expense (fun s => s) "T0" [sample_pharmacy_record] (-1) (fun r => r) =
      (false, [sample_pharmacy_record])) ∧
    (delete_expense (fun s => s) "T0" [sample_pharmacy_record] 0).1 = true :=
  ⟨(delete_update_index_bounds (fun s => s) "T0" [sample_pharmacy_record] (-1)
      (fun r => r)).1 (by decide),
   ((delete_update_index_bounds (fun s => s) "T0" [sample_pharmacy_record] 0
      (fun r => r)).2 (by decide)).1⟩

end ExpenseTracker
